import Mathlib

/-!
Verification development for the SimuAI drone-mission playback core.

The definitions below are a shallow embedding of the playback engine found in
the frontend sources:

* `SimulationDashboard` in MissionBuilder.tsx owns the timeline state
  (currentWaypointIndex, isPlaying, simulationSpeed, simulationStep,
  currentRun, activeFailures, lastTimeRef) and the animation-frame loop;
  it is embedded here as `TimelineState`, `tick`, `frame`, `resetState`
  and the user-command interpreter `exec`.
* The 3D `Scene` (ThreeDVisualization) drone-position effect is embedded
  as `dronePosition`, and its per-render failure sampling as
  `scene3DActiveFailures`.
* `VisualSimulation` (the 2D konva renderer) contributes the coordinate
  transformer (`getTransformData`, `transformCoord`) and its own local
  animation tick (`tick2D`).

JavaScript numbers are modelled as rationals (ℚ); where IEEE special values
matter (the frame-clock guard), an explicit `JSNum` type with NaN/±Infinity
is used.  `Math.random()` draws are modelled by an oracle `ℕ → ℚ` giving the
sample used for the k-th failure scenario of the mission.
-/

structure Coordinates where
  x : ℚ
  y : ℚ
  z : ℚ
deriving DecidableEq, Repr

structure Waypoint where
  id : String
  name : String
  waypoint_type : String
  coordinates : Coordinates
  altitude : ℚ
deriving DecidableEq, Repr

structure FailureScenario where
  id : String
  name : String
  failure_types : List String
  affected_waypoint_ids : List String
  severity : String
  probability : ℚ
deriving DecidableEq, Repr

structure Mission where
  mission_name : String
  waypoints : List Waypoint
  failure_scenarios : List FailureScenario
deriving DecidableEq, Repr

/-- `const [totalRuns] = useState(100)` in SimulationDashboard. -/
def totalRuns : ℕ := 100

/-- The mutable state owned by SimulationDashboard: the `useState` hooks
`currentWaypointIndex`, `isPlaying`, `simulationSpeed`, `simulationStep`,
`currentRun`, `activeFailures`, plus the `lastTimeRef` ref used by the
animation loop (0 denotes the unset initial value).

`capturedWaypointIndex` is the value of `currentWaypointIndex` captured by
the animation effect's `animate` closure.  The effect's dependency array is
`[isPlaying, mission, simulationSpeed, totalRuns]` — it does NOT include
`currentWaypointIndex` — so the closure's copy of the index is frozen at
whatever it was when the effect last (re)ran, and is refreshed only when one
of those dependencies changes, not when the live index advances. -/
structure TimelineState where
  currentWaypointIndex : ℕ
  isPlaying : Bool
  simulationSpeed : ℚ
  simulationStep : ℕ
  currentRun : ℕ
  activeFailures : List String
  lastTime : ℚ
  capturedWaypointIndex : ℕ
deriving DecidableEq, Repr

/-- `mission.waypoints[idx].id`, with a default for the out-of-bounds case
(unreachable in states the dashboard produces: the sampled index is always a
former in-bounds value of `currentWaypointIndex`, and every mission change
resets both indices to 0). -/
def currentWaypointId (m : Mission) (idx : ℕ) : String :=
  ((m.waypoints.get? idx).map Waypoint.id).getD ""

/-- The failure-sampling filter of SimulationDashboard's animate callback:
`mission.failure_scenarios.filter(sc => sc.affected_waypoint_ids.includes(
currentWaypoint.id) && Math.random() < sc.probability).flatMap(sc =>
sc.affected_waypoint_ids)`, with `oracle k` the uniform sample drawn for the
scenario at position `k`. -/
def activeFailuresAux (wid : String) (oracle : ℕ → ℚ) :
    ℕ → List FailureScenario → List String
  | _, [] => []
  | k, sc :: rest =>
      (if sc.affected_waypoint_ids.contains wid = true ∧ oracle k < sc.probability
       then sc.affected_waypoint_ids else []) ++ activeFailuresAux wid oracle (k + 1) rest

def activeFailuresOf (m : Mission) (idx : ℕ) (oracle : ℕ → ℚ) : List String :=
  activeFailuresAux (currentWaypointId m idx) oracle 0 m.failure_scenarios

/-- The waypoint/run advance performed when a consumed tick lands on
`newStep % 10 === 0`: `nextIndex = Math.min(prevIndex + 1, len - 1)`; when
`nextIndex === len - 1` the nested updaters wrap the run
(`nextRun = prevRun + 1`, halting with the run unchanged when
`nextRun > totalRuns`) and reset the waypoint index to 0.
Returns (new index, new run, new isPlaying). -/
def advance (m : Mission) (s : TimelineState) (newStep : ℕ) : ℕ × ℕ × Bool :=
  if newStep % 10 = 0 then
    let nextIndex := min (s.currentWaypointIndex + 1) (m.waypoints.length - 1)
    if nextIndex = m.waypoints.length - 1 then
      if s.currentRun + 1 > totalRuns then (0, s.currentRun, false)
      else (0, s.currentRun + 1, s.isPlaying)
    else (nextIndex, s.currentRun, s.isPlaying)
  else (s.currentWaypointIndex, s.currentRun, s.isPlaying)

/-- One consumed tick of SimulationDashboard's animate callback (the body of
the `deltaTime > 1000` branch): `stepCount` increments and the waypoint/run
advance of `advance` is applied through functional updaters (hence live).
The failure sampling, by contrast, reads the plain closure variable
`currentWaypointIndex` (`mission.waypoints[currentWaypointIndex]`), which is
the STALE value captured when the effect last ran — embedded here as
`s.capturedWaypointIndex` — not the live index. -/
def tick (m : Mission) (oracle : ℕ → ℚ) (s : TimelineState) : TimelineState :=
  let newStep := s.simulationStep + 1
  let a := advance m s newStep
  { s with
    simulationStep := newStep
    currentWaypointIndex := a.1
    currentRun := a.2.1
    isPlaying := a.2.2
    activeFailures := activeFailuresOf m s.capturedWaypointIndex oracle }

/-- One invocation of the animate callback at wall-clock time `currentTime`.
The surrounding effect runs only while `isPlaying && mission.waypoints.length`,
so the frame is a no-op otherwise.  `if (!lastTimeRef.current)
lastTimeRef.current = currentTime; const deltaTime = (currentTime -
lastTimeRef.current) * simulationSpeed; if (deltaTime > 1000) { ...tick...;
lastTimeRef.current = currentTime }`. -/
def frame (m : Mission) (oracle : ℕ → ℚ) (currentTime : ℚ)
    (s : TimelineState) : TimelineState :=
  if s.isPlaying = false ∨ m.waypoints = [] then s
  else
    let last := if s.lastTime = 0 then currentTime else s.lastTime
    let deltaTime := (currentTime - last) * s.simulationSpeed
    if deltaTime > 1000 then { tick m oracle s with lastTime := currentTime }
    else { s with lastTime := last }

/-- `handleReset` in SimulationDashboard, identical to the body of the
reset-on-mission-change `useEffect`.  Note that `lastTimeRef` and the speed
are untouched by the source.  A reset changes `isPlaying` (an effect
dependency), so the animation effect re-runs; any closure created afterwards
captures the post-reset index 0 (while paused no closure is live, so the
captured value is unobservable until the next play resyncs it anyway). -/
def resetState (s : TimelineState) : TimelineState :=
  { s with
    currentWaypointIndex := 0
    simulationStep := 0
    currentRun := 1
    activeFailures := []
    isPlaying := false
    capturedWaypointIndex := 0 }

/-- The dashboard together with its current mission prop. -/
structure Sys where
  mission : Mission
  tl : TimelineState

/-- User-visible operations on the dashboard: an animation frame, the
step/reset/play-pause/speed controls, and replacement of the mission prop. -/
inductive Op where
  | frameOp (oracle : ℕ → ℚ) (currentTime : ℚ)
  | stepForwardOp
  | stepBackwardOp
  | resetOp
  | playPauseOp
  | setSpeedOp (v : ℚ)
  | swapOp (m : Mission)

/-- Interpreter for `Op`: `handleStepForward` guards with
`currentWaypointIndex < mission.waypoints.length - 1` (JS arithmetic, hence
`idx + 1 < len` over ℕ), `handleStepBackward` with `currentWaypointIndex > 0`,
`handleReset` applies `resetState`, `handlePlayPause` toggles, and replacing
the `mission` prop triggers the reset-on-mission-change effect.

Toggling play/pause or changing the speed changes a dependency of the
animation effect, so the effect re-runs and its fresh closure captures the
then-current `currentWaypointIndex`; stepping forward/backward and animation
frames change no dependency, so the captured index is left as is. -/
def exec (sys : Sys) : Op → Sys
  | Op.frameOp oracle t => { sys with tl := frame sys.mission oracle t sys.tl }
  | Op.stepForwardOp =>
      if sys.tl.currentWaypointIndex + 1 < sys.mission.waypoints.length then
        { sys with tl :=
          { sys.tl with currentWaypointIndex := sys.tl.currentWaypointIndex + 1 } }
      else sys
  | Op.stepBackwardOp =>
      if 0 < sys.tl.currentWaypointIndex then
        { sys with tl :=
          { sys.tl with currentWaypointIndex := sys.tl.currentWaypointIndex - 1 } }
      else sys
  | Op.resetOp => { sys with tl := resetState sys.tl }
  | Op.playPauseOp =>
      { sys with tl :=
        { sys.tl with
          isPlaying := !sys.tl.isPlaying
          capturedWaypointIndex := sys.tl.currentWaypointIndex } }
  | Op.setSpeedOp v =>
      { sys with tl :=
        { sys.tl with
          simulationSpeed := v
          capturedWaypointIndex := sys.tl.currentWaypointIndex } }
  | Op.swapOp m => { mission := m, tl := resetState sys.tl }

/-- Default waypoint used for the (guarded) out-of-bounds array read. -/
def dfltWaypoint : Waypoint :=
  { id := "", name := "", waypoint_type := "", coordinates := ⟨0, 0, 0⟩, altitude := 0 }

/-- The drone-position effect of the 3D `Scene` (ThreeDVisualization):
`nextWaypoint = mission.waypoints[currentWaypointIndex + 1]`; when it exists,
`progress = (simulationStep % 10) / 10` and each axis is interpolated
independently; otherwise the drone rests at the current waypoint. -/
def dronePosition (m : Mission) (idx step : ℕ) : Coordinates :=
  let cur := (m.waypoints.get? idx).getD dfltWaypoint
  match m.waypoints.get? (idx + 1) with
  | some nxt =>
      let progress : ℚ := ((step % 10 : ℕ) : ℚ) / 10
      { x := cur.coordinates.x + (nxt.coordinates.x - cur.coordinates.x) * progress
        y := cur.coordinates.y + (nxt.coordinates.y - cur.coordinates.y) * progress
        z := cur.coordinates.z + (nxt.coordinates.z - cur.coordinates.z) * progress }
  | none => cur.coordinates

/-- The failure-simulation effect of the 3D `Scene`, which runs on every
`simulationStep` change with its own `Math.random()` draws and no check of
the current waypoint: `mission.failure_scenarios.filter(sc => Math.random()
< sc.probability).flatMap(sc => sc.affected_waypoint_ids)`. -/
def scene3DFailuresAux (oracle : ℕ → ℚ) : ℕ → List FailureScenario → List String
  | _, [] => []
  | k, sc :: rest =>
      (if oracle k < sc.probability then sc.affected_waypoint_ids else []) ++
        scene3DFailuresAux oracle (k + 1) rest

def scene3DActiveFailures (m : Mission) (oracle : ℕ → ℚ) : List String :=
  scene3DFailuresAux oracle 0 m.failure_scenarios

/-- Canvas constants of `VisualSimulation` (ResultsPanel 2D renderer). -/
def canvasWidth : ℚ := 800

def canvasHeight : ℚ := 600

def margin : ℚ := 50

/-- `Math.min(...l)` over a non-empty array ([] unreachable: callers early
return on an empty mission). -/
def listMin : List ℚ → ℚ
  | [] => 0
  | x :: xs => xs.foldl min x

def listMax : List ℚ → ℚ
  | [] => 0
  | x :: xs => xs.foldl max x

structure TransformData where
  scale : ℚ
  offsetX : ℚ
  offsetY : ℚ
  minX : ℚ
  minY : ℚ
deriving DecidableEq, Repr

/-- `getTransformData` of VisualSimulation: bounding box of the waypoint
(x,y) pairs, `scaleX = (canvasWidth - 2*margin) / (maxX - minX || 1)` (the
`|| 1` substitutes 1 for a zero span), `scale = Math.min(scaleX, scaleY, 2)`,
and centering offsets.  The empty-mission early return yields
`{scale: 1, offsetX: 0, offsetY: 0}` (minX/minY undefined, read back as 0
through `minX || 0`). -/
def getTransformData (m : Mission) : TransformData :=
  if m.waypoints = [] then ⟨1, 0, 0, 0, 0⟩
  else
    let xs := m.waypoints.map fun w => w.coordinates.x
    let ys := m.waypoints.map fun w => w.coordinates.y
    let minX := listMin xs
    let maxX := listMax xs
    let minY := listMin ys
    let maxY := listMax ys
    let spanX := if maxX - minX = 0 then 1 else maxX - minX
    let spanY := if maxY - minY = 0 then 1 else maxY - minY
    let scaleX := (canvasWidth - 2 * margin) / spanX
    let scaleY := (canvasHeight - 2 * margin) / spanY
    let scale := min (min scaleX scaleY) 2
    let offsetX := margin + (canvasWidth - 2 * margin - (maxX - minX) * scale) / 2
    let offsetY := margin + (canvasHeight - 2 * margin - (maxY - minY) * scale) / 2
    ⟨scale, offsetX, offsetY, minX, minY⟩

/-- `transformCoord` of VisualSimulation: `(coord.x - (minX || 0)) * scale +
offsetX` per axis (for rational minX, `minX || 0 = minX`: both sides are 0
when minX is 0). -/
def transformCoord (m : Mission) (c : Coordinates) : ℚ × ℚ :=
  let t := getTransformData m
  ((c.x - t.minX) * t.scale + t.offsetX, (c.y - t.minY) * t.scale + t.offsetY)

/-- One record of `detailed_failures` in a BatchResult. -/
structure DetailedFailure where
  run_number : ℕ
  waypoint_id : String
  waypoint_name : String
  scenario_id : String
  scenario_name : String
  failure_type : String
  severity : String
deriving DecidableEq, Repr

structure SimulationResult where
  detailed_failures : List DetailedFailure
deriving DecidableEq, Repr

/-- The local playback state of `VisualSimulation` (the 2D renderer keeps its
own `currentWaypointIndex`, `simulationStep` and `activeFailures` hooks,
independent of the dashboard's). -/
structure VState where
  currentWaypointIndex : ℕ
  simulationStep : ℕ
  activeFailures : List String
deriving DecidableEq, Repr

/-- One consumed tick of VisualSimulation's own animate callback: step
increments, the index advances (clamped, no run logic), and when a
`simulationResult` is present the highlighted failures become the
`waypoint_id`s of the `detailed_failures` whose `run_number ===
Math.floor(newStep / 50) + 1`; with no result the highlight set is left
untouched. -/
def tick2D (m : Mission) (result : Option SimulationResult) (s : VState) : VState :=
  let newStep := s.simulationStep + 1
  let idx :=
    if newStep % 10 = 0 then min (s.currentWaypointIndex + 1) (m.waypoints.length - 1)
    else s.currentWaypointIndex
  let failures :=
    match result with
    | some r =>
        (r.detailed_failures.filter fun f => f.run_number = newStep / 50 + 1).map
          fun f => f.waypoint_id
    | none => s.activeFailures
  { currentWaypointIndex := idx, simulationStep := newStep, activeFailures := failures }

/-- JavaScript double arithmetic restricted to what the frame-clock guard
needs: NaN, the two infinities, and finite values (as rationals). -/
inductive JSNum where
  | nan : JSNum
  | inf : JSNum
  | ninf : JSNum
  | fin : ℚ → JSNum
deriving DecidableEq, Repr

/-- IEEE subtraction on `JSNum` (the cases reachable from the guard). -/
def JSNum.sub : JSNum → JSNum → JSNum
  | JSNum.nan, _ => JSNum.nan
  | _, JSNum.nan => JSNum.nan
  | JSNum.inf, JSNum.inf => JSNum.nan
  | JSNum.inf, _ => JSNum.inf
  | JSNum.ninf, JSNum.ninf => JSNum.nan
  | JSNum.ninf, _ => JSNum.ninf
  | JSNum.fin _, JSNum.inf => JSNum.ninf
  | JSNum.fin _, JSNum.ninf => JSNum.inf
  | JSNum.fin a, JSNum.fin b => JSNum.fin (a - b)

/-- IEEE multiplication of a `JSNum` by a finite factor. -/
def JSNum.mulFin : JSNum → ℚ → JSNum
  | JSNum.nan, _ => JSNum.nan
  | JSNum.inf, c => if 0 < c then JSNum.inf else if c < 0 then JSNum.ninf else JSNum.nan
  | JSNum.ninf, c => if 0 < c then JSNum.ninf else if c < 0 then JSNum.inf else JSNum.nan
  | JSNum.fin a, c => JSNum.fin (a * c)

/-- IEEE `>` against a finite threshold: false for NaN and -Infinity, true
for +Infinity. -/
def JSNum.gtFin : JSNum → ℚ → Bool
  | JSNum.nan, _ => false
  | JSNum.inf, _ => true
  | JSNum.ninf, _ => false
  | JSNum.fin a, y => decide (y < a)

/-- Whether the animate callback's guard `deltaTime > 1000` fires for a
frame-clock value `t` (a JS double), given the finite stored
`lastTimeRef.current` and speed: `if (!lastTimeRef.current)
lastTimeRef.current = currentTime; deltaTime = (currentTime -
lastTimeRef.current) * simulationSpeed`. -/
def frameJSTicks (lastTime : ℚ) (speed : ℚ) (t : JSNum) : Bool :=
  let last := if lastTime = 0 then t else JSNum.fin lastTime
  ((t.sub last).mulFin speed).gtFin 1000

/-! Concrete missions, states and oracles used by the witnesses and
counterexamples below. -/

def wpA : Waypoint :=
  { id := "w1", name := "A", waypoint_type := "START",
    coordinates := ⟨0, 0, 0⟩, altitude := 0 }

def wpB : Waypoint :=
  { id := "w2", name := "B", waypoint_type := "END",
    coordinates := ⟨10, 0, 0⟩, altitude := 0 }

def wpC : Waypoint :=
  { id := "w3", name := "C", waypoint_type := "END",
    coordinates := ⟨20, 0, 0⟩, altitude := 0 }

def scHalf : FailureScenario :=
  { id := "s1", name := "engine", failure_types := ["mechanical_failure"],
    affected_waypoint_ids := ["w2"], severity := "high", probability := 1/2 }

def scSure : FailureScenario :=
  { id := "s2", name := "gps", failure_types := ["gps_signal_loss"],
    affected_waypoint_ids := ["w1", "w2"], severity := "critical", probability := 1 }

def mTwo : Mission :=
  { mission_name := "demo", waypoints := [wpA, wpB], failure_scenarios := [] }

def mThree : Mission :=
  { mission_name := "demo3", waypoints := [wpA, wpB, wpC], failure_scenarios := [] }

def mEmpty : Mission :=
  { mission_name := "empty", waypoints := [], failure_scenarios := [] }

def mScenario : Mission :=
  { mission_name := "withFailures", waypoints := [wpA, wpB],
    failure_scenarios := [scHalf, scSure] }

/-- Two waypoints sharing the same (x, y) (different z/altitude). -/
def wpD1 : Waypoint :=
  { id := "d1", name := "D1", waypoint_type := "START",
    coordinates := ⟨3, 4, 0⟩, altitude := 0 }

def wpD2 : Waypoint :=
  { id := "d2", name := "D2", waypoint_type := "END",
    coordinates := ⟨3, 4, 7⟩, altitude := 7 }

def mDegenerate : Mission :=
  { mission_name := "samexy", waypoints := [wpD1, wpD2], failure_scenarios := [] }

def oHalf : ℕ → ℚ := fun _ => 1/2

def oZero : ℕ → ℚ := fun _ => 0

def oHigh : ℕ → ℚ := fun _ => 9/10

/-- A playing state with one consumed-tick timestamp on record. -/
def sPlaying : TimelineState :=
  { currentWaypointIndex := 0, isPlaying := true, simulationSpeed := 1,
    simulationStep := 0, currentRun := 1, activeFailures := [], lastTime := 100,
    capturedWaypointIndex := 0 }

/-- The dashboard state right after mount/play (lastTimeRef still 0). -/
def sInit : TimelineState :=
  { currentWaypointIndex := 0, isPlaying := true, simulationSpeed := 1,
    simulationStep := 0, currentRun := 1, activeFailures := [], lastTime := 0,
    capturedWaypointIndex := 0 }

/-- A paused state (mid-run). -/
def sPaused : TimelineState :=
  { currentWaypointIndex := 1, isPlaying := false, simulationSpeed := 1,
    simulationStep := 4, currentRun := 2, activeFailures := ["w2"], lastTime := 900,
    capturedWaypointIndex := 1 }

/-- The state after `sInit` has seen frames at times 100 and 1200 on
`mTwo` (one consumed tick). -/
def sAfterTick : TimelineState :=
  { currentWaypointIndex := 0, isPlaying := true, simulationSpeed := 1,
    simulationStep := 1, currentRun := 1, activeFailures := [], lastTime := 1200,
    capturedWaypointIndex := 0 }

/-- Frames at 100 and 1200 (one tick), then pause, resume, and a frame much
later: the run exercising the pause/resume boundary. -/
def c8Ops : List Op :=
  [Op.frameOp oHalf 100, Op.frameOp oHalf 1200,
   Op.playPauseOp, Op.playPauseOp, Op.frameOp oHalf 50001]

/-- An operation sequence mixing ticks, manual steps, reset and a mid-playback
swap to a shorter mission. -/
def c5Ops : List Op :=
  [Op.frameOp oHalf 100, Op.frameOp oHalf 1200, Op.stepForwardOp,
   Op.stepForwardOp, Op.swapOp mTwo, Op.stepBackwardOp, Op.resetOp,
   Op.playPauseOp, Op.frameOp oHalf 3000]

/-- `swapOk op` holds when `op` is not a mission swap, or swaps in a mission
that still has at least one waypoint. -/
def swapOk : Op → Prop
  | Op.swapOp mNew => mNew.waypoints ≠ []
  | _ => True

def pDetail : DetailedFailure :=
  { run_number := 1, waypoint_id := "w2", waypoint_name := "B",
    scenario_id := "s1", scenario_name := "engine",
    failure_type := "mechanical_failure", severity := "high" }

def qDetail : DetailedFailure :=
  { run_number := 2, waypoint_id := "w1", waypoint_name := "A",
    scenario_id := "s2", scenario_name := "gps",
    failure_type := "gps_signal_loss", severity := "critical" }

def rBatch : SimulationResult := { detailed_failures := [pDetail, qDetail] }

/-- A certain (probability-1) scenario affecting only waypoint w2. -/
def scW2only : FailureScenario :=
  { id := "s3", name := "rotor", failure_types := ["mechanical_failure"],
    affected_waypoint_ids := ["w2"], severity := "high", probability := 1 }

/-- Three waypoints; the probability-1 scenario affects only the middle
waypoint w2 — the run exhibiting the stale-closure sampling. -/
def mStale : Mission :=
  { mission_name := "stale", waypoints := [wpA, wpB, wpC],
    failure_scenarios := [scW2only] }

/-- `mStale` freshly loaded: paused at index 0. -/
def sStaleStart : TimelineState :=
  { currentWaypointIndex := 0, isPlaying := false, simulationSpeed := 1,
    simulationStep := 0, currentRun := 1, activeFailures := [], lastTime := 0,
    capturedWaypointIndex := 0 }

/-- After pressing play: the animation effect runs and its closure captures
index 0. -/
def sStaleA : TimelineState :=
  { currentWaypointIndex := 0, isPlaying := true, simulationSpeed := 1,
    simulationStep := 0, currentRun := 1, activeFailures := [], lastTime := 0,
    capturedWaypointIndex := 0 }

/-- After stepping forward to waypoint index 1 (w2): no effect dependency
changed, so the closure still holds index 0. -/
def sStaleB : TimelineState :=
  { currentWaypointIndex := 1, isPlaying := true, simulationSpeed := 1,
    simulationStep := 0, currentRun := 1, activeFailures := [], lastTime := 0,
    capturedWaypointIndex := 0 }

/-- After the baseline frame at t = 100 (no tick yet). -/
def sStaleB1 : TimelineState :=
  { currentWaypointIndex := 1, isPlaying := true, simulationSpeed := 1,
    simulationStep := 0, currentRun := 1, activeFailures := [], lastTime := 100,
    capturedWaypointIndex := 0 }

/-- After the frame at t = 1200: one tick consumed while the drone sits on
w2, yet the failure sampling used the captured index 0 (w1), so the
probability-1 scenario on w2 did not activate. -/
def sStale3 : TimelineState :=
  { currentWaypointIndex := 1, isPlaying := true, simulationSpeed := 1,
    simulationStep := 1, currentRun := 1, activeFailures := [], lastTime := 1200,
    capturedWaypointIndex := 0 }

/-- Play, step to w2, baseline frame, ticking frame. -/
def c3Ops : List Op :=
  [Op.playPauseOp, Op.stepForwardOp, Op.frameOp oHalf 100, Op.frameOp oHalf 1200]

def vInit : VState :=
  { currentWaypointIndex := 0, simulationStep := 0, activeFailures := [] }

/-! Helper lemmas. -/

/-- While playing with a non-empty mission, a recorded last-tick time and an
effective elapsed time above the threshold, a frame is exactly one consumed
tick plus the timestamp update. -/
lemma frame_eq_tick (m : Mission) (oracle : ℕ → ℚ) (t : ℚ) (s : TimelineState)
    (hplay : s.isPlaying = true) (hne : m.waypoints ≠ [])
    (hlast : s.lastTime ≠ 0)
    (hdelta : (t - s.lastTime) * s.simulationSpeed > 1000) :
    frame m oracle t s = { tick m oracle s with lastTime := t } := by
  simp only [frame]
  rw [if_neg (by simp [hplay, hne]), if_neg hlast, if_pos hdelta]

lemma tick_simulationStep (m : Mission) (oracle : ℕ → ℚ) (s : TimelineState) :
    (tick m oracle s).simulationStep = s.simulationStep + 1 := rfl

lemma tick_index_lt (m : Mission) (oracle : ℕ → ℚ) (s : TimelineState)
    (hne : m.waypoints ≠ [])
    (hidx : s.currentWaypointIndex < m.waypoints.length) :
    (tick m oracle s).currentWaypointIndex < m.waypoints.length := by
  have hlen : 0 < m.waypoints.length := List.length_pos.mpr hne
  simp only [tick, advance]
  split_ifs <;> simp <;> omega

lemma frame_index_lt (m : Mission) (oracle : ℕ → ℚ) (t : ℚ) (s : TimelineState)
    (hne : m.waypoints ≠ [])
    (hidx : s.currentWaypointIndex < m.waypoints.length) :
    (frame m oracle t s).currentWaypointIndex < m.waypoints.length := by
  simp only [frame]
  split_ifs <;>
    first
      | exact hidx
      | simpa using tick_index_lt m oracle s hne hidx

lemma exec_preserves (sys : Sys) (op : Op)
    (hne : sys.mission.waypoints ≠ [])
    (hidx : sys.tl.currentWaypointIndex < sys.mission.waypoints.length)
    (hop : swapOk op) :
    (exec sys op).mission.waypoints ≠ [] ∧
      (exec sys op).tl.currentWaypointIndex < (exec sys op).mission.waypoints.length := by
  cases op with
  | frameOp oracle t => exact ⟨hne, frame_index_lt sys.mission oracle t sys.tl hne hidx⟩
  | stepForwardOp =>
      simp only [exec]
      split_ifs with h
      · exact ⟨by simpa using hne, by simpa using h⟩
      · exact ⟨hne, hidx⟩
  | stepBackwardOp =>
      simp only [exec]
      split_ifs with h
      · refine ⟨by simpa using hne, ?_⟩
        simp only []
        omega
      · exact ⟨hne, hidx⟩
  | resetOp => exact ⟨hne, by simpa [exec, resetState] using List.length_pos.mpr hne⟩
  | playPauseOp => exact ⟨hne, hidx⟩
  | setSpeedOp v => exact ⟨hne, hidx⟩
  | swapOp mNew =>
      have hne2 : mNew.waypoints ≠ [] := hop
      exact ⟨hne2, by simpa [exec, resetState] using List.length_pos.mpr hne2⟩

lemma exec_foldl_inv : ∀ (ops : List Op) (sys : Sys),
    sys.mission.waypoints ≠ [] →
    sys.tl.currentWaypointIndex < sys.mission.waypoints.length →
    (∀ op ∈ ops, swapOk op) →
    (ops.foldl exec sys).mission.waypoints ≠ [] ∧
      (ops.foldl exec sys).tl.currentWaypointIndex <
        (ops.foldl exec sys).mission.waypoints.length := by
  intro ops
  induction ops with
  | nil => intro sys h1 h2 _; exact ⟨h1, h2⟩
  | cons op rest ih =>
      intro sys h1 h2 hops
      have hop : swapOk op := hops op (List.mem_cons_self op rest)
      have h := exec_preserves sys op h1 h2 hop
      exact ih (exec sys op) h.1 h.2 fun o ho => hops o (List.mem_cons_of_mem op ho)

lemma mem_activeFailuresAux (wid : String) (oracle : ℕ → ℚ) (x : String) :
    ∀ (l : List FailureScenario) (k : ℕ),
      x ∈ activeFailuresAux wid oracle k l ↔
        ∃ j sc, l.get? j = some sc ∧
          (sc.affected_waypoint_ids.contains wid = true ∧
            oracle (k + j) < sc.probability) ∧
          x ∈ sc.affected_waypoint_ids := by
  intro l
  induction l with
  | nil => intro k; simp [activeFailuresAux]
  | cons sc rest ih =>
      intro k
      simp only [activeFailuresAux, List.mem_append]
      constructor
      · rintro (hmem | hmem)
        · by_cases hP : sc.affected_waypoint_ids.contains wid = true ∧ oracle k < sc.probability
          · rw [if_pos hP] at hmem
            exact ⟨0, sc, rfl, by simpa using hP, hmem⟩
          · rw [if_neg hP] at hmem
            simp at hmem
        · obtain ⟨j, sc2, hj, hcond, hx⟩ := (ih (k + 1)).mp hmem
          refine ⟨j + 1, sc2, by simpa using hj, ?_, hx⟩
          have harith : k + 1 + j = k + (j + 1) := by omega
          rw [harith] at hcond
          exact hcond
      · rintro ⟨j, sc2, hj, hcond, hx⟩
        cases j with
        | zero =>
            left
            have hsc : sc = sc2 := by simpa using hj
            subst hsc
            rw [if_pos (by simpa using hcond)]
            exact hx
        | succ j =>
            right
            refine (ih (k + 1)).mpr ⟨j, sc2, by simpa using hj, ?_, hx⟩
            have harith : k + (j + 1) = k + 1 + j := by omega
            rw [harith] at hcond
            exact hcond

lemma foldl_min_const (a : ℚ) : ∀ l : List ℚ, (∀ x ∈ l, x = a) → l.foldl min a = a := by
  intro l
  induction l with
  | nil => intro _; rfl
  | cons x xs ih =>
      intro h
      have hx : x = a := h x (List.mem_cons_self x xs)
      rw [List.foldl_cons, hx, min_self]
      exact ih fun y hy => h y (List.mem_cons_of_mem x hy)

lemma foldl_max_const (a : ℚ) : ∀ l : List ℚ, (∀ x ∈ l, x = a) → l.foldl max a = a := by
  intro l
  induction l with
  | nil => intro _; rfl
  | cons x xs ih =>
      intro h
      have hx : x = a := h x (List.mem_cons_self x xs)
      rw [List.foldl_cons, hx, max_self]
      exact ih fun y hy => h y (List.mem_cons_of_mem x hy)

lemma listMin_const (a : ℚ) (l : List ℚ) (hne : l ≠ []) (h : ∀ x ∈ l, x = a) :
    listMin l = a := by
  cases l with
  | nil => exact absurd rfl hne
  | cons x xs =>
      have hx : x = a := h x (List.mem_cons_self x xs)
      simp only [listMin, hx]
      exact foldl_min_const a xs fun y hy => h y (List.mem_cons_of_mem x hy)

lemma listMax_const (a : ℚ) (l : List ℚ) (hne : l ≠ []) (h : ∀ x ∈ l, x = a) :
    listMax l = a := by
  cases l with
  | nil => exact absurd rfl hne
  | cons x xs =>
      have hx : x = a := h x (List.mem_cons_self x xs)
      simp only [listMax, hx]
      exact foldl_max_const a xs fun y hy => h y (List.mem_cons_of_mem x hy)

/-! Claim theorems. -/

/-- Claim C1: for a playing timeline over a non-empty waypoint list, a frame
whose effective elapsed time `(t - lastTime) * speedMultiplier` crosses the
1000 ms threshold consumes exactly one tick (`stepCount` increases by 1); on
a tick whose new step is a multiple of 10 the waypoint index advances by 1
clamped to the last index; when the advance lands on the last index the run
increments and the index resets to 0; and when the incremented run would
exceed `totalRuns = 100`, playback halts with the run clamped at `totalRuns`,
which is never exceeded. -/
theorem timeline_tick_c1 (m : Mission) (oracle : ℕ → ℚ) (s : TimelineState) (t : ℚ)
    (hplay : s.isPlaying = true) (hne : m.waypoints ≠ [])
    (hlast : s.lastTime ≠ 0)
    (hdelta : (t - s.lastTime) * s.simulationSpeed > 1000)
    (hrun : s.currentRun ≤ totalRuns) :
    (frame m oracle t s).simulationStep = s.simulationStep + 1 ∧
    ((s.simulationStep + 1) % 10 ≠ 0 →
      (frame m oracle t s).currentWaypointIndex = s.currentWaypointIndex ∧
      (frame m oracle t s).currentRun = s.currentRun ∧
      (frame m oracle t s).isPlaying = true) ∧
    ((s.simulationStep + 1) % 10 = 0 →
      (min (s.currentWaypointIndex + 1) (m.waypoints.length - 1) ≠
          m.waypoints.length - 1 →
        (frame m oracle t s).currentWaypointIndex =
          min (s.currentWaypointIndex + 1) (m.waypoints.length - 1) ∧
        (frame m oracle t s).currentRun = s.currentRun ∧
        (frame m oracle t s).isPlaying = true) ∧
      (min (s.currentWaypointIndex + 1) (m.waypoints.length - 1) =
          m.waypoints.length - 1 →
        (frame m oracle t s).currentWaypointIndex = 0 ∧
        (s.currentRun + 1 ≤ totalRuns →
          (frame m oracle t s).currentRun = s.currentRun + 1 ∧
          (frame m oracle t s).isPlaying = true) ∧
        (totalRuns < s.currentRun + 1 →
          (frame m oracle t s).currentRun = s.currentRun ∧
          (frame m oracle t s).isPlaying = false))) ∧
    (frame m oracle t s).currentRun ≤ totalRuns := by
  rw [frame_eq_tick m oracle t s hplay hne hlast hdelta]
  refine ⟨rfl, ?_, ?_, ?_⟩
  · intro h10
    simp [tick, advance, h10, hplay]
  · intro h10
    constructor
    · intro hni
      simp [tick, advance, h10, hni, hplay]
    · intro hi
      refine ⟨?_, ?_, ?_⟩
      · simp [tick, advance, h10, hi]
        split_ifs <;> rfl
      · intro hr
        have hnot : ¬ s.currentRun + 1 > totalRuns := by omega
        simp [tick, advance, h10, hi, hnot, hplay]
      · intro hr
        have hgt : s.currentRun + 1 > totalRuns := by omega
        simp [tick, advance, h10, hi, hgt]
  · simp only [tick, advance]
    split_ifs <;> simp <;> omega

/-- Witness for C1 at the run-wrap input: two waypoints, step 9 → 10, the
advance reaches the last index. -/
def sWrap : TimelineState :=
  { currentWaypointIndex := 0, isPlaying := true, simulationSpeed := 1,
    simulationStep := 9, currentRun := 1, activeFailures := [], lastTime := 100,
    capturedWaypointIndex := 0 }

theorem timeline_tick_c1_witness :
    (frame mTwo oHalf 1200 sWrap).simulationStep = sWrap.simulationStep + 1 :=
  (timeline_tick_c1 mTwo oHalf sWrap 1200 rfl (by decide) (by norm_num [sWrap])
    (by norm_num [sWrap]) (by norm_num [sWrap, totalRuns])).1

/-- Claim C2: the interpolated drone position (3D `Scene` effect) equals the
coordinates of waypoint `i` when `i` is the last index, otherwise the
per-axis linear interpolation between waypoints `i` and `i+1` with progress
`(stepCount mod 10) / 10`; at `stepCount mod 10 = 0` it equals exactly the
coordinates of waypoint `i`.  Determinism is immediate: `dronePosition` is a
function of `(mission, currentWaypointIndex, stepCount)` alone. -/
theorem interpolator_c2 (m : Mission) (idx step : ℕ) (h : idx < m.waypoints.length) :
    (idx = m.waypoints.length - 1 →
      dronePosition m idx step = (m.waypoints.get ⟨idx, h⟩).coordinates) ∧
    (∀ h2 : idx + 1 < m.waypoints.length,
      dronePosition m idx step =
        { x := (m.waypoints.get ⟨idx, h⟩).coordinates.x +
            ((m.waypoints.get ⟨idx + 1, h2⟩).coordinates.x -
              (m.waypoints.get ⟨idx, h⟩).coordinates.x) * (((step % 10 : ℕ) : ℚ) / 10)
          y := (m.waypoints.get ⟨idx, h⟩).coordinates.y +
            ((m.waypoints.get ⟨idx + 1, h2⟩).coordinates.y -
              (m.waypoints.get ⟨idx, h⟩).coordinates.y) * (((step % 10 : ℕ) : ℚ) / 10)
          z := (m.waypoints.get ⟨idx, h⟩).coordinates.z +
            ((m.waypoints.get ⟨idx + 1, h2⟩).coordinates.z -
              (m.waypoints.get ⟨idx, h⟩).coordinates.z) * (((step % 10 : ℕ) : ℚ) / 10) }) ∧
    (step % 10 = 0 →
      dronePosition m idx step = (m.waypoints.get ⟨idx, h⟩).coordinates) := by
  have hcur : m.waypoints[idx]? = some m.waypoints[idx] :=
    List.getElem?_eq_getElem h
  refine ⟨?_, ?_, ?_⟩
  · intro hlastIdx
    have hnone : m.waypoints[idx + 1]? = none :=
      List.getElem?_eq_none (by omega)
    simp [dronePosition, hnone, hcur]
  · intro h2
    have hsome : m.waypoints[idx + 1]? = some m.waypoints[idx + 1] :=
      List.getElem?_eq_getElem h2
    simp [dronePosition, hsome, hcur]
  · intro hmod
    by_cases h2 : idx + 1 < m.waypoints.length
    · have hsome : m.waypoints[idx + 1]? = some m.waypoints[idx + 1] :=
        List.getElem?_eq_getElem h2
      simp [dronePosition, hsome, hcur, hmod]
    · have hnone : m.waypoints[idx + 1]? = none :=
        List.getElem?_eq_none (by omega)
      simp [dronePosition, hnone, hcur]

/-- Witness for C2: the spec §8 scenario, 3 collinear waypoints, index 0,
step 5: position (5, 0, 0). -/
theorem interpolator_c2_witness :
    dronePosition mThree 0 5 =
      { x := (mThree.waypoints.get ⟨0, by decide⟩).coordinates.x +
          ((mThree.waypoints.get ⟨1, by decide⟩).coordinates.x -
            (mThree.waypoints.get ⟨0, by decide⟩).coordinates.x) * (((5 % 10 : ℕ) : ℚ) / 10)
        y := (mThree.waypoints.get ⟨0, by decide⟩).coordinates.y +
          ((mThree.waypoints.get ⟨1, by decide⟩).coordinates.y -
            (mThree.waypoints.get ⟨0, by decide⟩).coordinates.y) * (((5 % 10 : ℕ) : ℚ) / 10)
        z := (mThree.waypoints.get ⟨0, by decide⟩).coordinates.z +
          ((mThree.waypoints.get ⟨1, by decide⟩).coordinates.z -
            (mThree.waypoints.get ⟨0, by decide⟩).coordinates.z) * (((5 % 10 : ℕ) : ℚ) / 10) } :=
  (interpolator_c2 mThree 0 5 (by decide)).2.1 (by decide)

/-- Claim C3 (refuted by the code): the dashboard's failure sampling does
NOT test the waypoint at the live `currentWaypointIndex`.  The animate
closure captures `currentWaypointIndex` when the animation effect runs, and
the effect's dependency array excludes it, so every tick samples against the
stale captured index.  Concretely: load `mStale` (probability-1 scenario
affecting only w2), play (closure captures index 0), step forward to w2,
deliver frames at t = 100 and t = 1200.  A tick is consumed while the
current waypoint is w2 — which the probability-1 scenario affects — yet
`activeFailures` comes out empty, because the sampling used the captured
index 0 (w1).  The last conjunct shows what the claim's live-index
algorithm would have produced on that tick: `["w2"]`. -/
theorem failure_sampling_c3_bug :
    currentWaypointId mStale 1 = "w2" ∧
    scW2only.probability = 1 ∧
    scW2only.affected_waypoint_ids.contains (currentWaypointId mStale 1) = true ∧
    c3Ops.foldl exec ⟨mStale, sStaleStart⟩ = ⟨mStale, sStale3⟩ ∧
    sStale3.simulationStep = 1 ∧
    sStale3.currentWaypointIndex = 1 ∧
    sStale3.activeFailures = [] ∧
    activeFailuresOf mStale 1 oHalf = ["w2"] := by
  have hsampleStale : activeFailuresOf mStale 0 oHalf = [] := by
    norm_num [activeFailuresOf, activeFailuresAux, currentWaypointId, mStale,
      scW2only, wpA]
    intro h
    exact absurd h (by decide)
  have hsampleLive : activeFailuresOf mStale 1 oHalf = ["w2"] := by
    norm_num [activeFailuresOf, activeFailuresAux, currentWaypointId, mStale,
      scW2only, oHalf, wpB]
  have x1 : exec ⟨mStale, sStaleStart⟩ Op.playPauseOp = ⟨mStale, sStaleA⟩ := rfl
  have x2 : exec ⟨mStale, sStaleA⟩ Op.stepForwardOp = ⟨mStale, sStaleB⟩ := rfl
  have x3 : exec ⟨mStale, sStaleB⟩ (Op.frameOp oHalf 100) = ⟨mStale, sStaleB1⟩ := by
    simp only [exec]
    rw [show frame mStale oHalf 100 sStaleB = sStaleB1 by
      simp only [frame]
      rw [if_neg (show ¬(sStaleB.isPlaying = false ∨ mStale.waypoints = []) by decide)]
      rw [if_pos (show sStaleB.lastTime = 0 from rfl)]
      rw [if_neg (show ¬(((100 : ℚ) - 100) * sStaleB.simulationSpeed > 1000) by
        norm_num [sStaleB])]
      rfl]
  have x4 : exec ⟨mStale, sStaleB1⟩ (Op.frameOp oHalf 1200) = ⟨mStale, sStale3⟩ := by
    simp only [exec]
    rw [frame_eq_tick mStale oHalf 1200 sStaleB1 rfl (by decide)
      (by norm_num [sStaleB1]) (by norm_num [sStaleB1])]
    simp [tick, advance, hsampleStale, sStaleB1, sStale3]
  have hchain : c3Ops.foldl exec ⟨mStale, sStaleStart⟩ = ⟨mStale, sStale3⟩ := by
    simp only [c3Ops, List.foldl]
    rw [x1, x2, x3, x4]
  exact ⟨rfl, rfl, rfl, hchain, rfl, rfl, rfl, hsampleLive⟩

/-- Claim C4 (refuted by the code): the render adapters are NOT pure
projections of `(mission, timelineState, interpolatedPosition,
activeFailureWaypointIds)`: the 3D `Scene` draws its own `Math.random()`
samples per render, so two renders with identical mission and timeline
inputs can display different failure sets.  `mScenario` with a
probability-1/2 scenario, sampled at 0 and at 9/10, exhibits the
divergence. -/
theorem renderer_divergence_c4 :
    scene3DActiveFailures mScenario oZero = ["w2", "w1", "w2"] ∧
    scene3DActiveFailures mScenario oHigh = ["w1", "w2"] ∧
    scene3DActiveFailures mScenario oZero ≠ scene3DActiveFailures mScenario oHigh := by
  refine ⟨?_, ?_, ?_⟩ <;>
    norm_num [scene3DActiveFailures, scene3DFailuresAux, mScenario, scHalf,
      scSure, oZero, oHigh]

/-- Claim C5: for every operation sequence over missions with at least one
waypoint (including mid-playback swaps to shorter missions), the waypoint
index stays strictly below the current mission's waypoint count (and is a
natural number, so it stays in `[0, count-1]`). -/
theorem index_invariant_c5 (ops : List Op) (sys : Sys)
    (hne : sys.mission.waypoints ≠ [])
    (hidx : sys.tl.currentWaypointIndex < sys.mission.waypoints.length)
    (hops : ∀ op ∈ ops, swapOk op) :
    (ops.foldl exec sys).tl.currentWaypointIndex <
      (ops.foldl exec sys).mission.waypoints.length :=
  (exec_foldl_inv ops sys hne hidx hops).2

theorem index_invariant_c5_witness :
    (c5Ops.foldl exec ⟨mThree, sInit⟩).tl.currentWaypointIndex <
      (c5Ops.foldl exec ⟨mThree, sInit⟩).mission.waypoints.length := by
  refine index_invariant_c5 c5Ops ⟨mThree, sInit⟩ (by decide) (by decide) ?_
  intro op hop
  simp only [c5Ops, List.mem_cons, List.not_mem_nil, or_false] at hop
  rcases hop with h | h | h | h | h | h | h | h | h <;> subst h <;> simp [swapOk, mTwo]

/-- Claim C6: `handleReset` from any state, and any replacement of the
mission prop (the reset-on-mission-change effect), leave the timeline in the
initial paused state — stepCount 0, waypoint index 0, run 1, no active
failures, not playing — and no frame against the new mission can consume a
tick before an explicit play, since `frame` is the identity on a non-playing
state. -/
theorem reset_c6 :
    ∀ (s : TimelineState) (sys : Sys) (mNew : Mission) (oracle : ℕ → ℚ) (t : ℚ),
      (resetState s).simulationStep = 0 ∧
      (resetState s).currentWaypointIndex = 0 ∧
      (resetState s).currentRun = 1 ∧
      (resetState s).activeFailures = [] ∧
      (resetState s).isPlaying = false ∧
      (exec sys (Op.swapOp mNew)).mission = mNew ∧
      (exec sys (Op.swapOp mNew)).tl = resetState sys.tl ∧
      frame mNew oracle t (resetState sys.tl) = resetState sys.tl := by
  intro s sys mNew oracle t
  refine ⟨rfl, rfl, rfl, rfl, rfl, rfl, rfl, ?_⟩
  simp [frame, resetState]

/-- Claim C7: the coordinate transformer fits the waypoint bounding box into
the fixed canvas with the scale capped at 2 for every mission, substitutes 1
for a zero-width/zero-height span, and for a mission whose waypoints all
share the same (x, y) the scale is exactly 2 (finite, no division by zero)
and every waypoint is mapped to the same screen point. -/
theorem transformer_c7 (m : Mission) (a b : ℚ)
    (hne : m.waypoints ≠ [])
    (hxy : ∀ w ∈ m.waypoints, w.coordinates.x = a ∧ w.coordinates.y = b) :
    (getTransformData m).scale = 2 ∧
    (∀ w1 ∈ m.waypoints, ∀ w2 ∈ m.waypoints,
      transformCoord m w1.coordinates = transformCoord m w2.coordinates) ∧
    (∀ mAny : Mission, (getTransformData mAny).scale ≤ 2) := by
  have hmapxne : m.waypoints.map (fun w => w.coordinates.x) ≠ [] := by
    simpa using hne
  have hmapyne : m.waypoints.map (fun w => w.coordinates.y) ≠ [] := by
    simpa using hne
  have hallx : ∀ x ∈ m.waypoints.map (fun w => w.coordinates.x), x = a := by
    intro x hx
    simp only [List.mem_map] at hx
    obtain ⟨w, hw, rfl⟩ := hx
    exact (hxy w hw).1
  have hally : ∀ y ∈ m.waypoints.map (fun w => w.coordinates.y), y = b := by
    intro y hy
    simp only [List.mem_map] at hy
    obtain ⟨w, hw, rfl⟩ := hy
    exact (hxy w hw).2
  have hminx : listMin (m.waypoints.map fun w => w.coordinates.x) = a :=
    listMin_const a _ hmapxne hallx
  have hmaxx : listMax (m.waypoints.map fun w => w.coordinates.x) = a :=
    listMax_const a _ hmapxne hallx
  have hminy : listMin (m.waypoints.map fun w => w.coordinates.y) = b :=
    listMin_const b _ hmapyne hally
  have hmaxy : listMax (m.waypoints.map fun w => w.coordinates.y) = b :=
    listMax_const b _ hmapyne hally
  have htd : getTransformData m = ⟨2, 400, 300, a, b⟩ := by
    unfold getTransformData
    rw [if_neg hne]
    simp only [hminx, hmaxx, hminy, hmaxy]
    norm_num [canvasWidth, canvasHeight, margin, min_def]
  refine ⟨by rw [htd], ?_, ?_⟩
  · intro w1 h1 w2 h2
    obtain ⟨hx1, hy1⟩ := hxy w1 h1
    obtain ⟨hx2, hy2⟩ := hxy w2 h2
    unfold transformCoord
    rw [htd, hx1, hy1, hx2, hy2]
  · intro mAny
    unfold getTransformData
    split_ifs
    · norm_num
    · exact min_le_right _ _

theorem transformer_c7_witness :
    (getTransformData mDegenerate).scale = 2 :=
  (transformer_c7 mDegenerate 3 4 (by decide) (by decide)).1

/-- Claim C8, amended: pausing cancels the pending frame (a frame on a
non-playing state is the identity, so no tick is delivered while paused) and
at most one tick is consumed per frame (no burst); but the last-tick
timestamp `lastTimeRef` is carried across a pause/resume boundary, not
reset, so the first frame after resuming consumes one tick immediately
whenever the wall-clock time since the last consumed tick exceeds the
threshold. -/
theorem pause_resume_c8_amended :
    (∀ (m : Mission) (oracle : ℕ → ℚ) (t : ℚ) (s : TimelineState),
      s.isPlaying = false → frame m oracle t s = s) ∧
    (∀ sys : Sys,
      (exec (exec sys Op.playPauseOp) Op.playPauseOp).tl.lastTime = sys.tl.lastTime ∧
      (exec (exec sys Op.playPauseOp) Op.playPauseOp).tl.isPlaying = sys.tl.isPlaying) ∧
    (∀ (m : Mission) (oracle : ℕ → ℚ) (t : ℚ) (s : TimelineState),
      (frame m oracle t s).simulationStep ≤ s.simulationStep + 1) ∧
    (∀ (m : Mission) (oracle : ℕ → ℚ) (s : TimelineState) (t : ℚ),
      s.isPlaying = true → m.waypoints ≠ [] → s.lastTime ≠ 0 →
      (t - s.lastTime) * s.simulationSpeed > 1000 →
      (frame m oracle t s).simulationStep = s.simulationStep + 1) := by
  refine ⟨?_, ?_, ?_, ?_⟩
  · intro m oracle t s h
    simp [frame, h]
  · intro sys
    constructor <;> simp [exec]
  · intro m oracle t s
    simp only [frame]
    split_ifs <;> simp [tick]
  · intro m oracle s t h1 h2 h3 h4
    rw [frame_eq_tick m oracle t s h1 h2 h3 h4]
    rfl

theorem pause_resume_c8_witness :
    frame mTwo oHalf 5000 sPaused = sPaused ∧
    (frame mTwo oHalf 1200 sPlaying).simulationStep = sPlaying.simulationStep + 1 :=
  ⟨pause_resume_c8_amended.1 mTwo oHalf 5000 sPaused rfl,
   pause_resume_c8_amended.2.2.2 mTwo oHalf sPlaying 1200 rfl (by decide)
     (by norm_num [sPlaying]) (by norm_num [sPlaying])⟩

/-- Counterexample to claim C8 as stated: run the dashboard (two waypoints)
through frames at times 100 and 1200 (one tick consumed, `lastTimeRef =
1200`), pause, resume, and deliver one frame at time 50001.  The pause/
resume boundary leaves `lastTimeRef` at 1200 — not reset — and the very
first post-resume frame consumes a tick (step 1 → 2, against the claim that
the elapsed-time accumulator is reset so that no progress is possible until
a fresh threshold elapses after resuming). -/
theorem pause_resume_c8_counterexample :
    ((c8Ops.take 4).foldl exec ⟨mTwo, sInit⟩).tl.lastTime = 1200 ∧
    ((c8Ops.take 4).foldl exec ⟨mTwo, sInit⟩).tl.isPlaying = true ∧
    ((c8Ops.take 4).foldl exec ⟨mTwo, sInit⟩).tl.simulationStep = 1 ∧
    (c8Ops.foldl exec ⟨mTwo, sInit⟩).tl.simulationStep = 2 := by
  have e1 : frame mTwo oHalf 100 sInit = sPlaying := by
    simp only [frame]
    rw [if_neg (show ¬(sInit.isPlaying = false ∨ mTwo.waypoints = []) by decide)]
    rw [if_pos (show sInit.lastTime = 0 from rfl)]
    rw [if_neg (show ¬(((100 : ℚ) - 100) * sInit.simulationSpeed > 1000) by
      norm_num [sInit])]
    rfl
  have e2 : frame mTwo oHalf 1200 sPlaying = sAfterTick := by
    rw [frame_eq_tick mTwo oHalf 1200 sPlaying rfl (by decide)
      (by norm_num [sPlaying]) (by norm_num [sPlaying])]
    rfl
  have e5 : frame mTwo oHalf 50001 sAfterTick = { tick mTwo oHalf sAfterTick with lastTime := 50001 } :=
    frame_eq_tick mTwo oHalf 50001 sAfterTick rfl (by decide)
      (by norm_num [sAfterTick]) (by norm_num [sAfterTick])
  have x1 : exec ⟨mTwo, sInit⟩ (Op.frameOp oHalf 100) = ⟨mTwo, sPlaying⟩ := by
    simp only [exec]
    rw [e1]
  have x2 : exec ⟨mTwo, sPlaying⟩ (Op.frameOp oHalf 1200) = ⟨mTwo, sAfterTick⟩ := by
    simp only [exec]
    rw [e2]
  have x34 : exec (exec ⟨mTwo, sAfterTick⟩ Op.playPauseOp) Op.playPauseOp =
      ⟨mTwo, sAfterTick⟩ := rfl
  have hchain4 : (c8Ops.take 4).foldl exec ⟨mTwo, sInit⟩ = ⟨mTwo, sAfterTick⟩ := by
    simp only [c8Ops, List.take, List.foldl]
    rw [x1, x2]
    exact x34
  have hchain5 : c8Ops.foldl exec ⟨mTwo, sInit⟩ =
      ⟨mTwo, { tick mTwo oHalf sAfterTick with lastTime := 50001 }⟩ := by
    simp only [c8Ops, List.foldl]
    rw [x1, x2]
    rw [show exec (exec ⟨mTwo, sAfterTick⟩ Op.playPauseOp) Op.playPauseOp =
      ⟨mTwo, sAfterTick⟩ from rfl]
    simp only [exec]
    rw [e5]
  refine ⟨?_, ?_, ?_, ?_⟩
  · rw [hchain4]
    rfl
  · rw [hchain4]
    rfl
  · rw [hchain4]
    rfl
  · rw [hchain5]
    rfl

/-- Claim C9, amended: ticking with zero waypoints is a no-op; a negative
elapsed time (clock going backwards) with a non-negative speed makes no
progress; a NaN or -Infinity frame-clock value fails the `> 1000` guard, so
no progress and no throw; but a +Infinity clock value PASSES the guard and
consumes a tick — non-finite elapsed time is not clamped to zero. -/
theorem edge_cases_c9_amended :
    (∀ (m : Mission) (oracle : ℕ → ℚ) (t : ℚ) (s : TimelineState),
      m.waypoints = [] → frame m oracle t s = s) ∧
    (∀ (m : Mission) (oracle : ℕ → ℚ) (t : ℚ) (s : TimelineState),
      0 ≤ s.simulationSpeed → s.lastTime ≠ 0 → t ≤ s.lastTime →
      (frame m oracle t s).simulationStep = s.simulationStep ∧
      (frame m oracle t s).currentWaypointIndex = s.currentWaypointIndex ∧
      (frame m oracle t s).currentRun = s.currentRun) ∧
    (∀ lastT speed : ℚ, frameJSTicks lastT speed JSNum.nan = false) ∧
    (∀ lastT speed : ℚ, 0 < speed → frameJSTicks lastT speed JSNum.ninf = false) := by
  refine ⟨?_, ?_, ?_, ?_⟩
  · intro m oracle t s h
    simp [frame, h]
  · intro m oracle t s hsp hlast ht
    have hdelta : ¬((t - s.lastTime) * s.simulationSpeed > 1000) := by
      have hnp : t - s.lastTime ≤ 0 := by linarith
      have hprod : (t - s.lastTime) * s.simulationSpeed ≤ 0 :=
        mul_nonpos_iff.mpr (Or.inr ⟨hnp, hsp⟩)
      linarith
    simp only [frame, if_neg hlast]
    split_ifs
    · exact ⟨rfl, rfl, rfl⟩
    · exact ⟨rfl, rfl, rfl⟩
  · intro lastT speed
    unfold frameJSTicks
    split_ifs <;> rfl
  · intro lastT speed hsp
    unfold frameJSTicks
    split_ifs with h
    · rfl
    · simp [JSNum.sub, JSNum.mulFin, JSNum.gtFin, hsp]

theorem edge_cases_c9_witness :
    frame mEmpty oHalf 5000 sPlaying = sPlaying ∧
    (frame mTwo oHalf 50 sPlaying).simulationStep = sPlaying.simulationStep ∧
    frameJSTicks 7 1 JSNum.nan = false ∧
    frameJSTicks 7 1 JSNum.ninf = false :=
  ⟨edge_cases_c9_amended.1 mEmpty oHalf 5000 sPlaying rfl,
   (edge_cases_c9_amended.2.1 mTwo oHalf 50 sPlaying (by norm_num [sPlaying])
      (by norm_num [sPlaying]) (by norm_num [sPlaying])).1,
   edge_cases_c9_amended.2.2.1 7 1,
   edge_cases_c9_amended.2.2.2 7 1 (by norm_num)⟩

/-- Counterexample to claim C9 as stated: a +Infinity frame-clock value is
non-finite elapsed time, yet the guard `deltaTime > 1000` evaluates to true
under IEEE comparison, so the engine consumes a tick instead of treating the
frame as zero elapsed. -/
theorem edge_cases_c9_counterexample :
    frameJSTicks 100 1 JSNum.inf = true := by
  norm_num [frameJSTicks, JSNum.sub, JSNum.mulFin, JSNum.gtFin]

/-- Claim C10: on every consumed tick of the 2D renderer with a BatchResult
present, the highlight set is exactly the `waypoint_id`s of the
`detailed_failures` whose `run_number` equals `floor(newStep / 50) + 1` — a
fixed 50-steps-per-run mapping that mentions neither the mission's waypoint
count nor its failure scenarios; with no BatchResult the highlight set is
never updated (an initially empty set stays empty over any number of ticks)
while step and index advance exactly as they would with a result present. -/
theorem batch_highlight_c10 :
    (∀ (m : Mission) (r : SimulationResult) (s : VState),
      (tick2D m (some r) s).activeFailures =
        (r.detailed_failures.filter fun f =>
          f.run_number = (s.simulationStep + 1) / 50 + 1).map fun f => f.waypoint_id) ∧
    (∀ (m : Mission) (s : VState),
      (tick2D m none s).activeFailures = s.activeFailures) ∧
    (∀ (m : Mission) (r : SimulationResult) (s : VState),
      (tick2D m none s).simulationStep = (tick2D m (some r) s).simulationStep ∧
      (tick2D m none s).currentWaypointIndex =
        (tick2D m (some r) s).currentWaypointIndex) ∧
    (∀ (m : Mission) (s : VState) (n : ℕ),
      (Nat.iterate (tick2D m none) n s).activeFailures = s.activeFailures) := by
  refine ⟨fun m r s => rfl, fun m s => rfl, fun m r s => ⟨rfl, rfl⟩, ?_⟩
  intro m s n
  induction n generalizing s with
  | zero => rfl
  | succ n ih =>
      rw [Function.iterate_succ_apply, ih (tick2D m none s)]
      rfl
